import Mathlib

/-!
Shallow embedding of the BetterVoice whisper bridge
(src/BetterVoice/BetterVoice/WhisperBridge.cpp and WhisperBridge.h).

The bridge wraps an external speech-recognition engine (whisper.cpp).
The engine itself is not part of this repository, so its observable
behaviour during one bridge call is passed in as parameters:

* `dflt : whisper_full_params` — the engine-chosen default parameter
  values returned by `whisper_full_default_params` (the engine sets the
  `strategy` field from the argument of that call; all other defaults
  are engine-owned, so they are universally quantified here);
* `fullRet : Int` — the return code of `whisper_full`;
* `segs : List (Option String)` — the per-segment texts reported by
  `whisper_full_n_segments` / `whisper_full_get_segment_text`
  (`none` models a null text pointer);
* `allocOk : Bool` — whether the single `malloc` on the taken return
  path succeeds (each return path of the C function allocates at most
  once).

Null C pointers are modelled as `none` / explicit `ctxNull`, `audioNull`
flags; the C `int` and the engine return code are modelled as `Int`.
The `fprintf` debug statements, `whisper_n_len` and the
`whisper_lang_auto_detect` diagnostic block write to stderr only and do
not affect the returned value; they are not part of the embedding.
-/

/-- Sampling strategies of the engine (WHISPER_SAMPLING_GREEDY,
WHISPER_SAMPLING_BEAM_SEARCH). -/
inductive whisper_sampling_strategy where
  | greedy
  | beam_search
deriving DecidableEq, Repr

/-- Context parameters passed to the engine loader; only the two fields
the bridge touches (WhisperBridge.cpp lines 16-19) are modelled. -/
structure whisper_context_params where
  use_gpu : Bool
  flash_attn : Bool
deriving DecidableEq, Repr

/-- Inference parameters; the fields the bridge sets (WhisperBridge.cpp
lines 57-76) plus the sampling strategy. `language` and
`initial_prompt` are C string pointers, hence `Option String`. -/
structure whisper_full_params where
  strategy : whisper_sampling_strategy
  n_threads : Int
  language : Option String
  translate : Bool
  print_progress : Bool
  print_special : Bool
  initial_prompt : Option String
deriving DecidableEq, Repr

/-- Engine-owned: `whisper_full_default_params(s)` returns defaults with
the sampling strategy set to its argument; the remaining defaults are
engine-chosen and are abstracted as `dflt`. -/
def whisper_full_default_params (dflt : whisper_full_params)
    (s : whisper_sampling_strategy) : whisper_full_params :=
  { dflt with strategy := s }

/-- Engine-owned: `whisper_context_default_params()`; its value is
abstracted and passed in. -/
def whisper_context_default_params (dflt : whisper_context_params) :
    whisper_context_params :=
  dflt

/-- The context parameters that `whisper_bridge_init` hands to
`whisper_init_from_file_with_params` (WhisperBridge.cpp lines 16-22):
engine defaults with `use_gpu` forced on and `flash_attn` forced off. -/
def whisper_bridge_init_cparams (dflt : whisper_context_params) :
    whisper_context_params :=
  { whisper_context_default_params dflt with use_gpu := true, flash_attn := false }

/-- `whisper_bridge_free` (WhisperBridge.cpp lines 25-29), modelled as
the number of `whisper_free` invocations it performs: the body is
`if (ctx) whisper_free(ctx);`, so a null context performs none and a
non-null context performs exactly one. The function is total: it never
faults. -/
def whisper_bridge_free (ctxNull : Bool) : Nat :=
  if ctxNull then 0 else 1

/-- `whisper_bridge_is_valid` (WhisperBridge.cpp lines 165-167):
`return ctx != nullptr;`. -/
def whisper_bridge_is_valid (ctxNull : Bool) : Bool :=
  !ctxNull

/-- The parameter-construction part of `whisper_bridge_transcribe`
(WhisperBridge.cpp lines 57-76), transcribed statement by statement:
greedy defaults, then `n_threads = 4`, `language = "en"`,
`translate = translate`, `print_progress = false`,
`print_special = false`, then `if (language) params.language = language;`
and `if (initial_prompt) params.initial_prompt = initial_prompt;`
(null-pointer tests, so a non-null empty string overrides). -/
def whisper_bridge_build_params (dflt : whisper_full_params)
    (language : Option String) (translate : Bool)
    (initial_prompt : Option String) : whisper_full_params :=
  let params0 := whisper_full_default_params dflt .greedy
  let params1 := { params0 with n_threads := 4 }
  let params2 := { params1 with
    language := some "en", translate := translate,
    print_progress := false, print_special := false }
  let params3 :=
    match language with
    | some l => { params2 with language := some l }
    | none => params2
  match initial_prompt with
  | some p => { params3 with initial_prompt := some p }
  | none => params3

/-- The diagnostic string built on the failure path (WhisperBridge.cpp
lines 101-102): `snprintf(error_msg, 100, "[DEBUG:whisper_full_failed:%d]",
result)`. The format fits in the 100-byte buffer, so no truncation. -/
def failureSentinel (code : Int) : String :=
  "[DEBUG:whisper_full_failed:" ++ toString code ++ "]"

/-- The diagnostic string returned when `n_segments == 0`
(WhisperBridge.cpp line 118). -/
def emptySentinel : String :=
  "[DEBUG:n_segments=0]"

/-- The concatenation loop of `whisper_bridge_transcribe`
(WhisperBridge.cpp lines 152-159): `result_text[0] = 0` then, for each
segment in order, `if (text) strcat(result_text, text);`. The earlier
length pass only sizes the buffer and cannot change the content. -/
def bridgeConcat (segs : List (Option String)) : String :=
  segs.foldl (fun acc t => match t with | some s => acc ++ s | none => acc) ""

/-- Observable outcome of one `whisper_bridge_transcribe` call:
the returned pointer (`none` = nullptr), whether `whisper_full` was
invoked, the parameters handed to it (when it was), and how many
`whisper_full_get_segment_text` accessor calls were made. -/
structure BridgeOutcome where
  ret : Option String
  engineCalled : Bool
  engineParams : Option whisper_full_params
  segTextReads : Nat
deriving DecidableEq, Repr

/-- `whisper_bridge_transcribe` (WhisperBridge.cpp lines 31-162).
Control flow of the source: (1) precondition guard
`if (!ctx || !audio_data || audio_length <= 0) return nullptr;`;
(2) build params and call `whisper_full`; (3) if the code is non-zero,
malloc and return the failure sentinel (nullptr if malloc fails);
(4) if `n_segments == 0`, malloc and return the empty sentinel (nullptr
if malloc fails); (5) otherwise read each segment text twice (length
pass and strcat pass), malloc the result buffer (nullptr if that
fails), and return the concatenation. -/
def whisper_bridge_transcribe (dflt : whisper_full_params)
    (ctxNull : Bool) (audioNull : Bool) (audio_length : Int)
    (language : Option String) (translate : Bool)
    (initial_prompt : Option String)
    (fullRet : Int) (segs : List (Option String)) (allocOk : Bool) :
    BridgeOutcome :=
  if ctxNull || audioNull || decide (audio_length ≤ 0) then
    { ret := none, engineCalled := false, engineParams := none, segTextReads := 0 }
  else
    let params := whisper_bridge_build_params dflt language translate initial_prompt
    if fullRet ≠ 0 then
      { ret := if allocOk then some (failureSentinel fullRet) else none,
        engineCalled := true, engineParams := some params, segTextReads := 0 }
    else if segs.length = 0 then
      { ret := if allocOk then some emptySentinel else none,
        engineCalled := true, engineParams := some params, segTextReads := 0 }
    else
      { ret := if allocOk then some (bridgeConcat segs) else none,
        engineCalled := true, engineParams := some params,
        segTextReads := 2 * segs.length }

/-- Spec-side concatenation: `t0 + t1 + ... + t(N-1)` in order, no
separators, null fragments skipped (spec section 8, concatenation order
property; section 4.2 step 5). -/
def specConcat : List (Option String) → String
  | [] => ""
  | none :: rest => specConcat rest
  | some t :: rest => t ++ specConcat rest

/-- Spec-side `TranscriptionConfig` (spec section 3), including the
`thread_count` field the spec describes; the bridge boundary
(WhisperBridge.h lines 30-37) exposes only `language`, `translate` and
`initial_prompt`. -/
structure TranscriptionConfig where
  language : Option String
  translate : Bool
  initial_prompt : Option String
  thread_count : Int
deriving DecidableEq, Repr

/-- A concrete engine-defaults value used to instantiate universally
quantified theorems at concrete inputs. -/
def engineDflt : whisper_full_params :=
  { strategy := .greedy, n_threads := 1, language := none, translate := false,
    print_progress := true, print_special := false, initial_prompt := none }

/-- A concrete spec-side configuration requesting two threads. -/
def specConfigTwoThreads : TranscriptionConfig :=
  { language := some "en", translate := false, initial_prompt := none,
    thread_count := 2 }

/- Helper lemmas. -/

/-- Generalized form of the concatenation loop: folding from any
accumulator appends the spec-side concatenation. -/
theorem bridge_foldl_eq (segs : List (Option String)) :
    ∀ a : String,
      List.foldl (fun acc t => match t with | some s => acc ++ s | none => acc)
          a segs
        = a ++ specConcat segs := by
  induction segs with
  | nil =>
      intro a
      simp [specConcat, String.append_empty]
  | cons hd tl ih =>
      intro a
      cases hd with
      | none => simp [specConcat, ih]
      | some s => simp [specConcat, ih, String.append_assoc]

/-- The source concatenation loop computes the spec-side
concatenation. -/
theorem bridgeConcat_eq_specConcat (segs : List (Option String)) :
    bridgeConcat segs = specConcat segs := by
  have h := bridge_foldl_eq segs ""
  simpa [bridgeConcat, String.empty_append] using h

/-- The empty-result sentinel differs from every failure sentinel:
their lengths differ (20 versus at least 28). -/
theorem emptySentinel_ne_failureSentinel (code : Int) :
    emptySentinel ≠ failureSentinel code := by
  intro h
  have hl := congrArg String.length h
  rw [failureSentinel, String.length_append, String.length_append] at hl
  have h1 : emptySentinel.length = 20 := rfl
  have h2 : ("[DEBUG:whisper_full_failed:" : String).length = 27 := rfl
  have h3 : ("]" : String).length = 1 := rfl
  rw [h1, h2, h3] at hl
  omega

/- Claim theorems. -/

/-- C1 counterexample: at a concrete call with valid inputs where the
engine returns the non-zero code -1, the bridge returns a non-null text
buffer (the diagnostic sentinel built after the failure), not a null
result as the claim states. -/
theorem c1_counterexample :
    (whisper_bridge_transcribe engineDflt false false 16000 none false none
        (-1) [] true).ret = some "[DEBUG:whisper_full_failed:-1]"
    ∧ some "[DEBUG:whisper_full_failed:-1]" ≠ (none : Option String) := by
  exact ⟨by decide, by decide⟩

/-- C1 (amended): whenever the engine single-shot entry point returns a
non-zero code on a call that passed the precondition guard, the bridge
performs no segment-text extraction and returns the distinct diagnostic
sentinel string encoding that code (a null pointer only when the
allocation for the sentinel fails); the result is never text assembled
from segments. -/
theorem c1_failure_sentinel_no_extraction (dflt : whisper_full_params)
    (audio_length : Int) (language : Option String) (translate : Bool)
    (initial_prompt : Option String) (fullRet : Int)
    (segs : List (Option String)) (allocOk : Bool)
    (hlen : 0 < audio_length) (hret : fullRet ≠ 0) :
    (whisper_bridge_transcribe dflt false false audio_length language translate
        initial_prompt fullRet segs allocOk).segTextReads = 0
    ∧ (whisper_bridge_transcribe dflt false false audio_length language translate
        initial_prompt fullRet segs allocOk).ret
      = (if allocOk then some (failureSentinel fullRet) else none) := by
  have hnot : ¬ audio_length ≤ 0 := by omega
  constructor <;> simp [whisper_bridge_transcribe, hnot, hret]

/-- C1 witness: the amended statement at a concrete failing call. -/
theorem c1_failure_sentinel_no_extraction_witness :
    (whisper_bridge_transcribe engineDflt false false 16000 (some "en") false
        none 3 [some "x"] true).segTextReads = 0
    ∧ (whisper_bridge_transcribe engineDflt false false 16000 (some "en") false
        none 3 [some "x"] true).ret
      = (if true then some (failureSentinel 3) else none) :=
  c1_failure_sentinel_no_extraction engineDflt 16000 (some "en") false none 3
    [some "x"] true (by decide) (by decide)

/-- C2: when the engine succeeds (code 0) and reports zero segments on a
call that passed the guard, the bridge returns the fixed empty-result
indicator string (null only when its allocation fails), reads no segment
text, and that indicator is distinct from every InferenceFailed
sentinel. -/
theorem c2_zero_segments_empty_result (dflt : whisper_full_params)
    (audio_length : Int) (language : Option String) (translate : Bool)
    (initial_prompt : Option String) (allocOk : Bool)
    (hlen : 0 < audio_length) :
    (whisper_bridge_transcribe dflt false false audio_length language translate
        initial_prompt 0 [] allocOk).ret
      = (if allocOk then some emptySentinel else none)
    ∧ (whisper_bridge_transcribe dflt false false audio_length language translate
        initial_prompt 0 [] allocOk).segTextReads = 0
    ∧ ∀ code : Int, emptySentinel ≠ failureSentinel code := by
  have hnot : ¬ audio_length ≤ 0 := by omega
  refine ⟨?_, ?_, fun code => emptySentinel_ne_failureSentinel code⟩
    <;> simp [whisper_bridge_transcribe, hnot]

/-- C2 witness: the statement at a concrete silent call. -/
theorem c2_zero_segments_empty_result_witness :
    (whisper_bridge_transcribe engineDflt false false 16000 (some "en") false
        none 0 [] true).ret = (if true then some emptySentinel else none)
    ∧ (whisper_bridge_transcribe engineDflt false false 16000 (some "en") false
        none 0 [] true).segTextReads = 0
    ∧ ∀ code : Int, emptySentinel ≠ failureSentinel code :=
  c2_zero_segments_empty_result engineDflt 16000 (some "en") false none true
    (by decide)

/-- C3: a null context, a null audio buffer, or a non-positive sample
count makes the bridge return a null result immediately without invoking
the engine. -/
theorem c3_invalid_input_no_engine_call (dflt : whisper_full_params)
    (ctxNull audioNull : Bool) (audio_length : Int)
    (language : Option String) (translate : Bool)
    (initial_prompt : Option String) (fullRet : Int)
    (segs : List (Option String)) (allocOk : Bool)
    (h : ctxNull = true ∨ audioNull = true ∨ audio_length ≤ 0) :
    (whisper_bridge_transcribe dflt ctxNull audioNull audio_length language
        translate initial_prompt fullRet segs allocOk).ret = none
    ∧ (whisper_bridge_transcribe dflt ctxNull audioNull audio_length language
        translate initial_prompt fullRet segs allocOk).engineCalled = false := by
  rcases h with h | h | h <;>
    constructor <;> simp [whisper_bridge_transcribe, h]

/-- C3 witness: a call with a null audio buffer at a concrete input. -/
theorem c3_invalid_input_no_engine_call_witness :
    (whisper_bridge_transcribe engineDflt false true 16000 (some "en") false
        none 0 [some "x"] true).ret = none
    ∧ (whisper_bridge_transcribe engineDflt false true 16000 (some "en") false
        none 0 [some "x"] true).engineCalled = false :=
  c3_invalid_input_no_engine_call engineDflt false true 16000 (some "en") false
    none 0 [some "x"] true (Or.inr (Or.inl rfl))

/-- C4: on a successful call (code 0, at least one segment, result
allocation succeeding), the returned buffer is exactly the ordered,
separator-free concatenation of the non-null segment texts; null
fragments are skipped without aborting. -/
theorem c4_concatenation_order (dflt : whisper_full_params)
    (audio_length : Int) (language : Option String) (translate : Bool)
    (initial_prompt : Option String) (segs : List (Option String))
    (hlen : 0 < audio_length) (hseg : 0 < segs.length) :
    (whisper_bridge_transcribe dflt false false audio_length language translate
        initial_prompt 0 segs true).ret = some (specConcat segs) := by
  have hnot : ¬ audio_length ≤ 0 := by omega
  have hne : segs.length ≠ 0 := by omega
  simp [whisper_bridge_transcribe, hnot, hne, bridgeConcat_eq_specConcat]

/-- C4 witness: three segments, the middle one null, concatenate in
order with no separator. -/
theorem c4_concatenation_order_witness :
    (whisper_bridge_transcribe engineDflt false false 16000 (some "en") false
        none 0 [some "Hello", none, some " world"] true).ret
      = some "Hello world" := by
  have h := c4_concatenation_order engineDflt 16000 (some "en") false none
    [some "Hello", none, some " world"] (by decide) (by decide)
  exact h.trans (by decide)

/-- C5 counterexample: the boundary accepts no thread count, and the
parameters built for a configuration requesting two threads carry
`n_threads = 4`, not the caller-supplied value. -/
theorem c5_counterexample :
    (whisper_bridge_build_params engineDflt specConfigTwoThreads.language
        specConfigTwoThreads.translate
        specConfigTwoThreads.initial_prompt).n_threads
      ≠ specConfigTwoThreads.thread_count := by
  decide

/-- C5 (amended): the parameter structure built for every call carries
the hardcoded thread count 4, regardless of the caller-supplied
configuration; the bridge boundary exposes no thread-count input. -/
theorem c5_thread_count_hardcoded (dflt : whisper_full_params)
    (language : Option String) (translate : Bool)
    (initial_prompt : Option String) :
    (whisper_bridge_build_params dflt language translate
        initial_prompt).n_threads = 4 := by
  cases language <;> cases initial_prompt <;> rfl

/-- C6: the language handed to the engine is exactly the caller-supplied
one whenever one is supplied (non-null pointer), and the fixed fallback
string en only when the caller supplies none. -/
theorem c6_language_honored (dflt : whisper_full_params) (translate : Bool)
    (initial_prompt : Option String) :
    (∀ l : String,
        (whisper_bridge_build_params dflt (some l) translate
            initial_prompt).language = some l)
    ∧ (whisper_bridge_build_params dflt none translate
          initial_prompt).language = some "en" := by
  cases initial_prompt <;> exact ⟨fun l => rfl, rfl⟩

/-- C7: the built parameters select greedy sampling, disable progress
and special-token printing, carry the caller translate flag, and carry a
present initial prompt verbatim. -/
theorem c7_params_greedy_flags (dflt : whisper_full_params)
    (language : Option String) (translate : Bool)
    (initial_prompt : Option String) (p : String) :
    (whisper_bridge_build_params dflt language translate
        initial_prompt).strategy = .greedy
    ∧ (whisper_bridge_build_params dflt language translate
          initial_prompt).print_progress = false
    ∧ (whisper_bridge_build_params dflt language translate
          initial_prompt).print_special = false
    ∧ (whisper_bridge_build_params dflt language translate
          initial_prompt).translate = translate
    ∧ (whisper_bridge_build_params dflt language translate
          (some p)).initial_prompt = some p := by
  cases language <;> cases initial_prompt <;> exact ⟨rfl, rfl, rfl, rfl, rfl⟩

/-- C8: the context parameters passed to the engine loader enable GPU
execution and disable the fused fast-attention path, for every
engine-default value. -/
theorem c8_init_gpu_no_flash_attn (dflt : whisper_context_params) :
    (whisper_bridge_init_cparams dflt).use_gpu = true
    ∧ (whisper_bridge_init_cparams dflt).flash_attn = false :=
  ⟨rfl, rfl⟩

/-- C9: releasing a null handle performs zero engine free operations (a
no-op, and the modelled function is total, so it never faults); a
non-null handle is freed exactly once. -/
theorem c9_free_null_noop :
    whisper_bridge_free true = 0 ∧ whisper_bridge_free false = 1 :=
  ⟨rfl, rfl⟩

/-- C10: a non-null empty language string is forwarded verbatim and
suppresses the en fallback; only a null language pointer triggers the
fallback; a non-null initial prompt (any string) is forwarded verbatim
and only a null prompt pointer leaves the engine default in place. -/
theorem c10_null_checks_only (dflt : whisper_full_params)
    (language : Option String) (translate : Bool)
    (initial_prompt : Option String) (p : String) :
    (whisper_bridge_build_params dflt (some "") translate
        initial_prompt).language = some ""
    ∧ (whisper_bridge_build_params dflt none translate
          initial_prompt).language = some "en"
    ∧ (whisper_bridge_build_params dflt language translate
          (some p)).initial_prompt = some p
    ∧ (whisper_bridge_build_params dflt language translate
          none).initial_prompt = dflt.initial_prompt := by
  cases language <;> cases initial_prompt <;> exact ⟨rfl, rfl, rfl, rfl⟩
